import Mathlib

/-!
Verification of the wizard engine and prompt-bridge core of the
aws-toolkit-vscode sources.

The embedding covers:
* the quick-pick prompt bridge (`promptUser`), its busy variant
  (`promptUserWithBusyMessage`) and `verifySinglePickerOutput`, translated
  from `src/shared/ui/picker.ts` (shipped inside
  `src/shared/sam/cli/samCliConfiguration.ts` in this snapshot);
* the concrete wizard `CreateNewSamAppWizard` from
  `src/lambda/wizards/samInitWizard.ts` (its state, `getResult`, and the
  seven step closures);
* the generic engine loop, which is not part of this snapshot and is
  therefore modelled from the spec.

Asynchronous, event-driven code is embedded by making the stream of UI
events explicit: a prompt session is a function from the ordered list of
events the widget fires to the settlement of the returned promise, and the
one-shot discipline of a JS promise is captured by taking the first
settling event only.
-/

/-- A UI button, kept abstract: the bridge only forwards it to the
caller-supplied handler. -/
structure Button where
  id : Nat
deriving DecidableEq, Repr

/-- An event fired by the quick-pick widget during one prompt session.
`accept` carries the snapshot of `picker.selectedItems` at fire time. -/
inductive PickerEvent (α : Type) where
  | accept (selected : List α)
  | hide
  | button (b : Button)
deriving DecidableEq, Repr

/-- What a caller-supplied `onDidTriggerButton` handler does with the
`resolve`/`reject` callbacks when a given button fires: nothing, resolve
with a value, or reject the promise. -/
inductive ButtonAction (α : Type) where
  | pass
  | resolveWith (v : Option (List α))
  | rejectPromise
deriving DecidableEq, Repr

/-- Settlement of the promise returned by `promptUser`: resolution with
`some items` (accept or a handler resolving a value), resolution with
`none` (cancellation), or rejection by the handler. -/
inductive Settlement (α : Type) where
  | resolved (v : Option (List α))
  | rejected
deriving DecidableEq, Repr

/-- The first settlement produced by a list of widget events, given the
button handler.  A JS promise settles at most once, so later events are
ignored: `resolve(Array.from(picker.selectedItems))` on accept,
`resolve(undefined)` on hide, and the handler's own choice on a button
press (a handler that calls neither callback leaves the promise pending,
so scanning continues). -/
def firstSettlement {α : Type} (handler : Button → ButtonAction α) :
    List (PickerEvent α) → Option (Settlement α)
  | [] => none
  | PickerEvent.accept items :: _ => some (Settlement.resolved (some items))
  | PickerEvent.hide :: _ => some (Settlement.resolved none)
  | PickerEvent.button b :: rest =>
    match handler b with
    | ButtonAction.pass => firstSettlement handler rest
    | ButtonAction.resolveWith v => some (Settlement.resolved v)
    | ButtonAction.rejectPromise => some Settlement.rejected

/-- Observable outcome of one `promptUser` session: how the promise
settled (`none` while it is still pending), whether every subscription
registered during the session was disposed, and whether the widget was
hidden. -/
structure SessionResult (α : Type) where
  outcome : Option (Settlement α)
  disposed : Bool
  hidden : Bool
deriving DecidableEq, Repr

/-- `promptUser` from the picker module: subscribes accept, hide and
(optionally) button handlers into `disposables`, shows the picker, awaits
the first settlement, and in a `finally` block disposes every subscription
and hides the picker.  The `finally` runs exactly when the awaited promise
settles; an unsettled promise leaves the session pending with nothing
released. -/
def promptUser {α : Type} (handler : Button → ButtonAction α)
    (events : List (PickerEvent α)) : SessionResult α :=
  match firstSettlement handler events with
  | none => { outcome := none, disposed := false, hidden := false }
  | some s => { outcome := some s, disposed := true, hidden := true }

/-- `verifySinglePickerOutput`: undefined or empty input yields undefined;
a single choice is returned; more than one choice logs a warning and
yields undefined.  The second component records whether the warning was
logged. -/
def verifySinglePickerOutput {α : Type} (choices : Option (List α)) :
    Option α × Bool :=
  match choices with
  | none => (none, false)
  | some [] => (none, false)
  | some [x] => (some x, false)
  | some (_ :: _ :: _) => (none, true)

/-- How the eventual settlement of the externally supplied population task
relates, in time, to the hide event during the busy phase of
`promptUserWithBusyMessage`; the constructor carries what happens
afterwards. -/
inductive BusyPhase (α : Type) where
  /-- The widget fired hide strictly before the population task settled;
  the task later either resolves or rejects (`laterRejects`), which the
  already-resolved inner promise ignores. -/
  | hideFirst (laterRejects : Bool)
  /-- The population task resolved first; the interactive phase then sees
  the given event stream. -/
  | populatorResolvedFirst (events : List (PickerEvent α))
  /-- The population task rejected before any hide event.  `hideLater`
  records whether a hide event eventually fires afterwards. -/
  | populatorRejectedFirst (hideLater : Bool)
deriving DecidableEq, Repr

/-- Settlement state of the promise returned by
`promptUserWithBusyMessage`. -/
inductive BusyOutcome (α : Type) where
  | pending
  | resolvedItems (xs : List α)
  | resolvedUndefined
  | rejected
deriving DecidableEq, Repr

/-- Observables of one `promptUserWithBusyMessage` call: the settlement of
the returned promise, whether the interactive prompt phase
(`promptUser`) was started, and whether the busy-phase hide subscription
was disposed. -/
structure BusyResult (α : Type) where
  outcome : BusyOutcome α
  promptPhaseStarted : Bool
  busyDisposablesDisposed : Bool
deriving DecidableEq, Repr

/-- `promptUserWithBusyMessage`: wraps an inner
`new Promise(async (resolve, ..) => ...)` that subscribes a hide listener
resolving `false`, marks the picker busy, shows it, awaits the populator
and resolves `true`.  The `then` continuation either un-busies the picker
and delegates to `promptUser` (on `true`) or disposes the hide listener
and returns undefined (on `false`).  Because the executor is an async
function, a rejection of the populator rejects only the executor's own
(ignored) promise: the inner promise is left unsettled unless a hide
event later resolves it `false`. -/
def promptUserWithBusyMessage {α : Type} (handler : Button → ButtonAction α)
    (phase : BusyPhase α) : BusyResult α :=
  match phase with
  | BusyPhase.hideFirst _ =>
    { outcome := BusyOutcome.resolvedUndefined
      promptPhaseStarted := false
      busyDisposablesDisposed := true }
  | BusyPhase.populatorResolvedFirst events =>
    let inner := promptUser handler events
    { outcome :=
        match inner.outcome with
        | none => BusyOutcome.pending
        | some (Settlement.resolved (some xs)) => BusyOutcome.resolvedItems xs
        | some (Settlement.resolved none) => BusyOutcome.resolvedUndefined
        | some Settlement.rejected => BusyOutcome.rejected
      promptPhaseStarted := true
      busyDisposablesDisposed := false }
  | BusyPhase.populatorRejectedFirst hideLater =>
    if hideLater then
      { outcome := BusyOutcome.resolvedUndefined
        promptPhaseStarted := false
        busyDisposablesDisposed := true }
    else
      { outcome := BusyOutcome.pending
        promptPhaseStarted := false
        busyDisposablesDisposed := false }

/-!
## The concrete wizard (`src/lambda/wizards/samInitWizard.ts`)

Runtimes, templates, regions, registry and schema names are strings;
`vscode.Uri` locations are kept abstract as strings as well (the wizard
never inspects one).
-/

/-- The private mutable fields of `CreateNewSamAppWizard`; every field
starts out undefined and is written only by its owning step. -/
structure WizardState where
  runtime : Option String := none
  template : Option String := none
  region : Option String := none
  registryName : Option String := none
  schemaName : Option String := none
  location : Option String := none
  name : Option String := none
deriving DecidableEq, Repr

/-- The value `CreateNewSamAppWizard.getResult` builds.  The TypeScript
interface `CreateNewSamAppWizardResponse` declares `region`,
`registryName` and `schemaName` as required `string`s, but `getResult`
populates them with `this.region!` etc., a compile-time-only assertion
that passes undefined through at runtime; the embedding therefore gives
those three fields the runtime type `Option String`. -/
structure CreateNewSamAppWizardResponse where
  runtime : String
  template : String
  region : Option String
  registryName : Option String
  schemaName : Option String
  location : String
  name : String
deriving DecidableEq, Repr

/-- `CreateNewSamAppWizard.getResult`: undefined unless `runtime`,
`template`, `location` and `name` are all set; otherwise the response
assembled from the accumulated fields, with `region`, `registryName` and
`schemaName` passed through unchecked. -/
def getResult (s : WizardState) : Option CreateNewSamAppWizardResponse :=
  match s.runtime, s.template, s.location, s.name with
  | some r, some t, some l, some n =>
    some { runtime := r, template := t, region := s.region,
           registryName := s.registryName, schemaName := s.schemaName,
           location := l, name := n }
  | _, _, _, _ => none

/-- Identifiers of the seven step closures of `CreateNewSamAppWizard`. -/
inductive StepId where
  | RUNTIME
  | TEMPLATE
  | REGION
  | REGISTRY
  | SCHEMA
  | LOCATION
  | NAME
deriving DecidableEq, Repr

/-- The `CreateNewSamAppWizardContext` prompts as a deterministic oracle:
each prompt maps its arguments (as the steps pass them) to the user's
answer, `none` meaning cancellation.  `promptUserForTemplate`,
`promptUserForRegistry` and `promptUserForSchema` receive non-null
assertions (`this.runtime!`, `this.region!`); the oracle takes the
optional field as it actually is. -/
structure StepOracle where
  promptUserForRuntime : Option String → Option String
  promptUserForTemplate : Option String → Option String
  promptUserForRegion : Option String
  promptUserForRegistry : Option String → Option String
  promptUserForSchema : Option String → Option String
  promptUserForLocation : Option String
  promptUserForName : Option String

/-- The `RUNTIME` step: store the prompt's answer in `this.runtime`, then
go to `TEMPLATE` on an answer and abort (undefined) on cancellation. -/
def stepRUNTIME (ctx : StepOracle) (st : WizardState) :
    WizardState × Option StepId :=
  let r := ctx.promptUserForRuntime st.runtime
  ({ st with runtime := r },
   if r.isSome then some StepId.TEMPLATE else none)

/-- The `TEMPLATE` step: store the prompt's answer in `this.template`;
`eventBridge-schema-app` goes to `REGION`, any other answer to
`LOCATION`, cancellation back to `RUNTIME`. -/
def stepTEMPLATE (ctx : StepOracle) (st : WizardState) :
    WizardState × Option StepId :=
  let t := ctx.promptUserForTemplate st.runtime
  ({ st with template := t },
   if t = some "eventBridge-schema-app" then some StepId.REGION
   else if t.isSome then some StepId.LOCATION else some StepId.RUNTIME)

/-- The `REGION` step: store the answer in `this.region`, then `REGISTRY`
on an answer and `TEMPLATE` on cancellation. -/
def stepREGION (ctx : StepOracle) (st : WizardState) :
    WizardState × Option StepId :=
  let r := ctx.promptUserForRegion
  ({ st with region := r },
   if r.isSome then some StepId.REGISTRY else some StepId.TEMPLATE)

/-- The `REGISTRY` step: store the answer in `this.registryName`, then
`SCHEMA` on an answer and `TEMPLATE` on cancellation. -/
def stepREGISTRY (ctx : StepOracle) (st : WizardState) :
    WizardState × Option StepId :=
  let r := ctx.promptUserForRegistry st.region
  ({ st with registryName := r },
   if r.isSome then some StepId.SCHEMA else some StepId.TEMPLATE)

/-- The `SCHEMA` step: store the answer in `this.schemaName`, then
`LOCATION` on an answer and `REGISTRY` on cancellation. -/
def stepSCHEMA (ctx : StepOracle) (st : WizardState) :
    WizardState × Option StepId :=
  let s := ctx.promptUserForSchema st.region
  ({ st with schemaName := s },
   if s.isSome then some StepId.LOCATION else some StepId.REGISTRY)

/-- The `LOCATION` step: store the answer in `this.location`; on
cancellation both branches of the template check return `TEMPLATE`,
otherwise go to `NAME`. -/
def stepLOCATION (ctx : StepOracle) (st : WizardState) :
    WizardState × Option StepId :=
  let l := ctx.promptUserForLocation
  ({ st with location := l },
   if l.isSome then some StepId.NAME else some StepId.TEMPLATE)

/-- The `NAME` step: store the answer in `this.name`, then stop
(undefined) on an answer and go back to `LOCATION` on cancellation. -/
def stepNAME (ctx : StepOracle) (st : WizardState) :
    WizardState × Option StepId :=
  let n := ctx.promptUserForName
  ({ st with name := n },
   if n.isSome then none else some StepId.LOCATION)

/-- Dispatch a step identifier to its step closure. -/
def runStep (ctx : StepOracle) : StepId → WizardState →
    WizardState × Option StepId
  | StepId.RUNTIME => stepRUNTIME ctx
  | StepId.TEMPLATE => stepTEMPLATE ctx
  | StepId.REGION => stepREGION ctx
  | StepId.REGISTRY => stepREGISTRY ctx
  | StepId.SCHEMA => stepSCHEMA ctx
  | StepId.LOCATION => stepLOCATION ctx
  | StepId.NAME => stepNAME ctx

/-!
## The template set held by the wizard context

`DefaultCreateNewSamAppWizardContext` holds the immutable full template
set `lambdaTemplates` (`readonly`) and the mutable
`lambdaTemplatesHelloWorld`, the set its template prompt offers.
-/

/-- The two template sets of `DefaultCreateNewSamAppWizardContext`;
`lambdaTemplates` is `readonly`, `lambdaTemplatesHelloWorld` is a plain
mutable field. -/
structure TemplateContext where
  lambdaTemplates : List String
  lambdaTemplatesHelloWorld : List String
deriving DecidableEq, Repr

/-- The state effect and offering of
`DefaultCreateNewSamAppWizardContext.promptUserForTemplate`: when
`currRuntime` is `python3.7` or `python3.6` it first assigns
`this.lambdaTemplatesHelloWorld = this.lambdaTemplates`, then builds the
quick-pick items from `this.lambdaTemplatesHelloWorld`.  Returns the
updated context and the offered template labels. -/
def promptUserForTemplate (ctx : TemplateContext) (currRuntime : String) :
    TemplateContext × List String :=
  let ctx' :=
    if currRuntime = "python3.7" ∨ currRuntime = "python3.6" then
      { ctx with lambdaTemplatesHelloWorld := ctx.lambdaTemplates }
    else ctx
  (ctx', ctx'.lambdaTemplatesHelloWorld)

/-- A sequence of `promptUserForTemplate` calls on the same context, in
order. -/
def promptUserForTemplateSeq (ctx : TemplateContext) :
    List String → TemplateContext
  | [] => ctx
  | r :: rs => promptUserForTemplateSeq (promptUserForTemplate ctx r).1 rs

/-!
## The engine loop

Modelled from the spec: the generic engine class (`MultiStepWizard` in
`src/shared/wizards/multiStepWizard.ts`) is not part of this snapshot —
only its concrete subclass is — so `run()` is modelled from §4.1 of the
specification: invoke the current step; on the terminate sentinel exit
the loop and assemble the result; on undefined exit immediately with no
assembly and an undefined result; on a step identifier continue.  The
loop is unbounded, so the embedding takes fuel and reports divergence
when it runs out.
-/

/-- What a step returns to the engine, per §3 of the spec: a new step
identifier, the terminate sentinel, or undefined (abort). -/
inductive StepResult (σ : Type) where
  | next (s : σ)
  | terminate
  | abort
deriving DecidableEq, Repr

/-- Outcome of `run()`: the wizard diverged (fuel ran out in the
embedding), or completed with `getResult`'s value, or with undefined. -/
inductive RunOutcome (ρ : Type) where
  | diverged
  | completed (result : Option ρ)
deriving DecidableEq, Repr

/-- Modelled from the spec: the `run()` loop of the engine (§4.1),
instrumented with the list of step identifiers it invoked, in order.
`steps` maps a step identifier to its step function, `assemble` is the
concrete wizard's result assembly. -/
def runFrom {σ St ρ : Type} (steps : σ → St → St × StepResult σ)
    (assemble : St → Option ρ) :
    Nat → σ → St → List σ × RunOutcome ρ
  | 0, _, _ => ([], RunOutcome.diverged)
  | fuel + 1, cur, st =>
    match steps cur st with
    | (st', StepResult.terminate) => ([cur], RunOutcome.completed (assemble st'))
    | (_, StepResult.abort) => ([cur], RunOutcome.completed none)
    | (st', StepResult.next s) =>
      let rest := runFrom steps assemble fuel s st'
      (cur :: rest.1, rest.2)

/-!
## Helper lemmas
-/

/-- `getResult` succeeds exactly when the four mandatory fields are set. -/
theorem getResult_isSome (st : WizardState) :
    (getResult st).isSome =
      (st.runtime.isSome && st.template.isSome && st.location.isSome &&
        st.name.isSome) := by
  unfold getResult
  cases st.runtime <;> cases st.template <;> cases st.location <;>
    cases st.name <;> rfl

/-- On fully set mandatory fields `getResult` returns the accumulated
values. -/
theorem getResult_eq_some (st : WizardState) (r t l n : String)
    (hr : st.runtime = some r) (ht : st.template = some t)
    (hl : st.location = some l) (hn : st.name = some n) :
    getResult st =
      some { runtime := r, template := t, region := st.region,
             registryName := st.registryName, schemaName := st.schemaName,
             location := l, name := n } := by
  unfold getResult
  rw [hr, ht, hl, hn]

/-- With any mandatory field absent `getResult` returns undefined. -/
theorem getResult_eq_none (st : WizardState)
    (h : st.runtime = none ∨ st.template = none ∨ st.location = none ∨
      st.name = none) :
    getResult st = none := by
  unfold getResult
  rcases hr : st.runtime with _ | r <;> rcases ht : st.template with _ | t <;>
    rcases hl : st.location with _ | l <;> rcases hn : st.name with _ | n <;>
    simp_all

/-- `promptUserForTemplate` never touches the `readonly` full template
set. -/
theorem promptUserForTemplate_full_const (ctx : TemplateContext)
    (r : String) :
    (promptUserForTemplate ctx r).1.lambdaTemplates = ctx.lambdaTemplates := by
  unfold promptUserForTemplate
  by_cases h : r = "python3.7" ∨ r = "python3.6" <;> simp [h]

/-- Once the offered set equals the full set, any sequence of further
`promptUserForTemplate` calls keeps both sets equal to the original full
set. -/
theorem promptUserForTemplateSeq_widened (rs : List String)
    (ctx : TemplateContext)
    (h : ctx.lambdaTemplatesHelloWorld = ctx.lambdaTemplates) :
    (promptUserForTemplateSeq ctx rs).lambdaTemplatesHelloWorld =
        ctx.lambdaTemplates ∧
      (promptUserForTemplateSeq ctx rs).lambdaTemplates =
        ctx.lambdaTemplates := by
  induction rs generalizing ctx with
  | nil => exact ⟨h, rfl⟩
  | cons r rs ih =>
    have hfull := promptUserForTemplate_full_const ctx r
    have hhw : (promptUserForTemplate ctx r).1.lambdaTemplatesHelloWorld =
        ctx.lambdaTemplates := by
      unfold promptUserForTemplate
      by_cases hc : r = "python3.7" ∨ r = "python3.6" <;> simp [hc, h]
    have := ih (promptUserForTemplate ctx r).1 (by rw [hhw, hfull])
    simpa [promptUserForTemplateSeq, hfull] using this

/-!
## Claims
-/

/-- C1.  When a step of the concrete wizard returns the terminate
sentinel (spec-modelled engine; a step's TypeScript `undefined` that
means successful completion is the sentinel of §3), `run()` assembles its
result from the accumulated state: the fully populated response when the
mandatory fields `runtime`, `template`, `location` and `name` are all
set, and undefined when any of them is absent. -/
theorem C1_terminate_result
    (steps : StepId → WizardState → WizardState × StepResult StepId)
    (fuel : Nat) (cur : StepId) (st st' : WizardState)
    (h : steps cur st = (st', StepResult.terminate)) :
    (runFrom steps getResult (fuel + 1) cur st).2 =
        RunOutcome.completed (getResult st') ∧
      (∀ r t l n : String, st'.runtime = some r → st'.template = some t →
        st'.location = some l → st'.name = some n →
        getResult st' =
          some { runtime := r, template := t, region := st'.region,
                 registryName := st'.registryName,
                 schemaName := st'.schemaName, location := l, name := n }) ∧
      ((st'.runtime = none ∨ st'.template = none ∨ st'.location = none ∨
          st'.name = none) →
        getResult st' = none) := by
  refine ⟨?_, ?_, ?_⟩
  · simp [runFrom, h]
  · intro r t l n hr ht hl hn
    exact getResult_eq_some st' r t l n hr ht hl hn
  · intro hmiss
    exact getResult_eq_none st' hmiss

/-- A state with every field of the response set. -/
def stAllSet : WizardState :=
  { runtime := some "python3.7", template := some "hello-world",
    region := some "us-east-1", registryName := some "reg",
    schemaName := some "sch", location := some "/workspace/proj",
    name := some "app" }

/-- Witness for C1 at a concrete terminating configuration. -/
theorem C1_terminate_result_witness :
    (runFrom (fun (_ : StepId) (st : WizardState) =>
        (st, StepResult.terminate)) getResult 1 StepId.NAME stAllSet).2 =
        RunOutcome.completed (getResult stAllSet) ∧
      getResult stAllSet =
        some { runtime := "python3.7", template := "hello-world",
               region := some "us-east-1", registryName := some "reg",
               schemaName := some "sch", location := "/workspace/proj",
               name := "app" } :=
  ⟨(C1_terminate_result (fun _ st => (st, StepResult.terminate)) 0
      StepId.NAME stAllSet stAllSet rfl).1, rfl⟩

/-- C2.  A step returning undefined (`StepResult.abort` in the
spec-modelled engine) aborts the wizard: the loop exits at once, the
trace records no step after the aborting one, no result assembly takes
place (the outcome is undefined for every assembly function alike), and
`run()` returns undefined. -/
theorem C2_abort_exits
    (steps : StepId → WizardState → WizardState × StepResult StepId)
    (fuel : Nat) (cur : StepId) (st st' : WizardState)
    (h : steps cur st = (st', StepResult.abort)) :
    ∀ assemble : WizardState → Option CreateNewSamAppWizardResponse,
      runFrom steps assemble (fuel + 1) cur st =
        ([cur], RunOutcome.completed none) := by
  intro assemble
  simp [runFrom, h]

/-- Witness for C2 at a concrete aborting configuration. -/
theorem C2_abort_exits_witness :
    runFrom (fun (_ : StepId) (st : WizardState) => (st, StepResult.abort))
        getResult 1 StepId.RUNTIME {} =
      ([StepId.RUNTIME], RunOutcome.completed none) :=
  C2_abort_exits (fun _ st => (st, StepResult.abort)) 0 StepId.RUNTIME {} {}
    rfl getResult

/-- C3.  A prompt session settles with its first settling event and
exactly once: an accept fired first resolves the promise to the snapshot
of the selected items (including the empty snapshot), a hide fired first
resolves it to undefined, and whatever fires afterwards — a hide after
the accept, an accept after the hide — cannot change the already-settled
outcome. -/
theorem C3_first_event_settles {α : Type}
    (handler : Button → ButtonAction α) (xs : List α)
    (rest : List (PickerEvent α)) :
    promptUser handler (PickerEvent.accept xs :: rest) =
        { outcome := some (Settlement.resolved (some xs)), disposed := true,
          hidden := true } ∧
      promptUser handler (PickerEvent.hide :: rest) =
        { outcome := some (Settlement.resolved none), disposed := true,
          hidden := true } ∧
      promptUser handler (PickerEvent.accept ([] : List α) :: rest) =
        { outcome := some (Settlement.resolved (some [])), disposed := true,
          hidden := true } :=
  ⟨rfl, rfl, rfl⟩

/-- C4.  Whenever the prompt session's promise settles — accept, hide, or
a caller-supplied button handler resolving or rejecting — every
subscription registered during the session is disposed and the widget is
hidden. -/
theorem C4_settlement_cleanup {α : Type}
    (handler : Button → ButtonAction α) (events : List (PickerEvent α))
    (s : Settlement α) (h : (promptUser handler events).outcome = some s) :
    (promptUser handler events).disposed = true ∧
      (promptUser handler events).hidden = true := by
  unfold promptUser at *
  cases hfs : firstSettlement handler events <;> rw [hfs] at h <;>
    simp_all

/-- Witness for C4: a session settled by the handler rejecting the
promise on a button press. -/
theorem C4_settlement_cleanup_witness :
    (promptUser (fun (_ : Button) => ButtonAction.rejectPromise (α := String))
          [PickerEvent.button ⟨0⟩]).disposed = true ∧
      (promptUser (fun (_ : Button) => ButtonAction.rejectPromise (α := String))
          [PickerEvent.button ⟨0⟩]).hidden = true :=
  C4_settlement_cleanup (fun _ => ButtonAction.rejectPromise)
    [PickerEvent.button ⟨0⟩] Settlement.rejected rfl

/-- C5.  A hide fired strictly before the population task settles makes
`promptUserWithBusyMessage` resolve to undefined, never starts the
interactive prompt phase, and discards whatever the population task later
does (`laterRejects` is arbitrary and the outcome does not depend on
it). -/
theorem C5_hide_during_busy {α : Type}
    (handler : Button → ButtonAction α) (laterRejects : Bool) :
    promptUserWithBusyMessage handler (BusyPhase.hideFirst laterRejects) =
      { outcome := BusyOutcome.resolvedUndefined, promptPhaseStarted := false,
        busyDisposablesDisposed := true } :=
  rfl

/-- C6 (amended).  A rejection of the population task is not delivered to
the caller: the promise returned by `promptUserWithBusyMessage` never
rejects.  The async executor's rejection is lost, so the returned promise
stays pending unless a hide event later fires, in which case it resolves
to undefined. -/
theorem C6_rejection_not_delivered
    (handler : Button → ButtonAction String) :
    (promptUserWithBusyMessage handler
          (BusyPhase.populatorRejectedFirst false)).outcome =
        BusyOutcome.pending ∧
      (promptUserWithBusyMessage handler
          (BusyPhase.populatorRejectedFirst true)).outcome =
        BusyOutcome.resolvedUndefined ∧
      ∀ hideLater : Bool,
        (promptUserWithBusyMessage handler
            (BusyPhase.populatorRejectedFirst hideLater)).outcome ≠
          BusyOutcome.rejected := by
  refine ⟨rfl, rfl, ?_⟩
  intro hideLater
  cases hideLater <;> simp [promptUserWithBusyMessage]

/-- Counterexample to C6 as stated: with the trivial button handler and a
population task that rejects before any hide event, the returned promise
does not reject — it is left pending. -/
theorem C6_counterexample :
    (promptUserWithBusyMessage (fun (_ : Button) => ButtonAction.pass (α := String))
          (BusyPhase.populatorRejectedFirst false)).outcome =
        BusyOutcome.pending ∧
      (promptUserWithBusyMessage (fun (_ : Button) => ButtonAction.pass (α := String))
          (BusyPhase.populatorRejectedFirst false)).outcome ≠
        BusyOutcome.rejected := by
  exact ⟨rfl, by simp [promptUserWithBusyMessage]⟩

/-- C7.  `verifySinglePickerOutput` returns undefined on undefined or
empty input (without warning), returns the single choice on a singleton,
and on two or more choices logs the warning and returns undefined. -/
theorem C7_verify_single_picker_output {α : Type} (x y : α) (xs : List α) :
    verifySinglePickerOutput (α := α) none = (none, false) ∧
      verifySinglePickerOutput (some ([] : List α)) = (none, false) ∧
      verifySinglePickerOutput (some [x]) = (some x, false) ∧
      verifySinglePickerOutput (some (x :: y :: xs)) = (none, true) :=
  ⟨rfl, rfl, rfl, rfl⟩

/-- C8.  When the `TEMPLATE` step's prompt is cancelled it redirects to
`RUNTIME`, and re-running the `RUNTIME` step replaces the state's
`runtime` field with exactly the new prompt answer while leaving every
other field untouched: the resulting state is the previous state with
that single field overwritten atomically. -/
theorem C8_backnav_overwrites (ctx : StepOracle) (st : WizardState)
    (h : ctx.promptUserForTemplate st.runtime = none) :
    (stepTEMPLATE ctx st).2 = some StepId.RUNTIME ∧
      (stepRUNTIME ctx (stepTEMPLATE ctx st).1).1 =
        { (stepTEMPLATE ctx st).1 with
            runtime := ctx.promptUserForRuntime st.runtime } := by
  constructor
  · simp [stepTEMPLATE, h]
  · simp [stepTEMPLATE, stepRUNTIME, h]

/-- A prompt oracle for the C8 witness: the template prompt cancels and
the runtime prompt answers `go1.x`. -/
def oracleBacknav : StepOracle :=
  { promptUserForRuntime := fun _ => some "go1.x"
    promptUserForTemplate := fun _ => none
    promptUserForRegion := none
    promptUserForRegistry := fun _ => none
    promptUserForSchema := fun _ => none
    promptUserForLocation := none
    promptUserForName := none }

/-- A state that already chose `python3.7` before the back-navigation. -/
def stBacknav : WizardState :=
  { runtime := some "python3.7", template := some "hello-world" }

/-- Witness for C8: concrete back-navigation in which the re-run chooses
`go1.x` over the earlier `python3.7`. -/
theorem C8_backnav_overwrites_witness :
    (stepTEMPLATE oracleBacknav stBacknav).2 = some StepId.RUNTIME ∧
      (stepRUNTIME oracleBacknav (stepTEMPLATE oracleBacknav stBacknav).1).1 =
        { (stepTEMPLATE oracleBacknav stBacknav).1 with
            runtime := oracleBacknav.promptUserForRuntime stBacknav.runtime } :=
  C8_backnav_overwrites oracleBacknav stBacknav rfl

/-- A terminating state for a non-`eventBridge-schema-app` run: the four
mandatory fields are set, the three schema-related fields were never
visited. -/
def stNoSchema : WizardState :=
  { runtime := some "python3.8", template := some "hello-world",
    location := some "/workspace/proj", name := some "app" }

/-- C9.  `getResult` gates its result on `runtime`, `template`,
`location` and `name` alone: its success is exactly the presence of those
four fields, and on a terminating run whose template is not
`eventBridge-schema-app` it returns a response in which `region`,
`registryName` and `schemaName` are absent, although the declared
TypeScript response type lists them as required strings. -/
theorem C9_unchecked_schema_fields :
    (∀ st : WizardState, (getResult st).isSome =
        (st.runtime.isSome && st.template.isSome && st.location.isSome &&
          st.name.isSome)) ∧
      stNoSchema.template ≠ some "eventBridge-schema-app" ∧
      getResult stNoSchema =
        some { runtime := "python3.8", template := "hello-world",
               region := none, registryName := none, schemaName := none,
               location := "/workspace/proj", name := "app" } :=
  ⟨getResult_isSome, by decide, rfl⟩

/-- When the offered set already equals the full set, every call offers
the full set, whatever the runtime. -/
theorem promptUserForTemplate_offers (ctx : TemplateContext) (r : String)
    (h : ctx.lambdaTemplatesHelloWorld = ctx.lambdaTemplates) :
    (promptUserForTemplate ctx r).2 = ctx.lambdaTemplates := by
  unfold promptUserForTemplate
  by_cases hc : r = "python3.7" ∨ r = "python3.6" <;> simp [hc, h]

/-- C10.  A `promptUserForTemplate` call with runtime `python3.7` or
`python3.6` replaces the context's `lambdaTemplatesHelloWorld` with the
full `lambdaTemplates` set and offers that full set, and the replacement
is permanent: after any sequence of further calls, with any runtimes, the
field still holds the full set and the next call still offers it. -/
theorem C10_template_set_widened (ctx : TemplateContext) (r : String)
    (hr : r = "python3.7" ∨ r = "python3.6") (rs : List String)
    (r' : String) :
    (promptUserForTemplate ctx r).1.lambdaTemplatesHelloWorld =
        ctx.lambdaTemplates ∧
      (promptUserForTemplate ctx r).2 = ctx.lambdaTemplates ∧
      (promptUserForTemplateSeq (promptUserForTemplate ctx r).1
          rs).lambdaTemplatesHelloWorld = ctx.lambdaTemplates ∧
      (promptUserForTemplate
          (promptUserForTemplateSeq (promptUserForTemplate ctx r).1 rs)
          r').2 = ctx.lambdaTemplates := by
  have hhw : (promptUserForTemplate ctx r).1.lambdaTemplatesHelloWorld =
      ctx.lambdaTemplates := by
    unfold promptUserForTemplate
    rcases hr with hr | hr <;> simp [hr]
  have hfull := promptUserForTemplate_full_const ctx r
  have hseq := promptUserForTemplateSeq_widened rs
    (promptUserForTemplate ctx r).1 (by rw [hhw, hfull])
  rw [hfull] at hseq
  refine ⟨hhw, ?_, hseq.1, ?_⟩
  · show (promptUserForTemplate ctx r).1.lambdaTemplatesHelloWorld =
      ctx.lambdaTemplates
    exact hhw
  · have hoff := promptUserForTemplate_offers
      (promptUserForTemplateSeq (promptUserForTemplate ctx r).1 rs) r'
      (by rw [hseq.1, hseq.2])
    rw [hoff, hseq.2]

/-- A context whose offered set starts as the hello-world subset. -/
def ctxTemplates : TemplateContext :=
  { lambdaTemplates := ["hello-world", "eventBridge-schema-app"]
    lambdaTemplatesHelloWorld := ["hello-world"] }

/-- Witness for C10: one `python3.7` call widens the set, and it stays
widened across later calls with other runtimes. -/
theorem C10_template_set_widened_witness :
    (promptUserForTemplate ctxTemplates "python3.7").1.lambdaTemplatesHelloWorld =
        ctxTemplates.lambdaTemplates ∧
      (promptUserForTemplate ctxTemplates "python3.7").2 =
        ctxTemplates.lambdaTemplates ∧
      (promptUserForTemplateSeq
          (promptUserForTemplate ctxTemplates "python3.7").1
          ["nodejs10.x", "java8"]).lambdaTemplatesHelloWorld =
        ctxTemplates.lambdaTemplates ∧
      (promptUserForTemplate
          (promptUserForTemplateSeq
            (promptUserForTemplate ctxTemplates "python3.7").1
            ["nodejs10.x", "java8"]) "go1.x").2 =
        ctxTemplates.lambdaTemplates :=
  C10_template_set_widened ctxTemplates "python3.7" (Or.inl rfl)
    ["nodejs10.x", "java8"] "go1.x"
